import Mathlib

/-!
Verification of the Filterize signal-fusion credibility engine.

This file gives a shallow embedding, in Lean 4, of the aggregation, caching,
retry/fallback, fact-checking and provider-routing logic of the Filterize
repository (`src/ai_detection.py`, `src/enhanced_media_detection.py`,
`src/server.py`, `src/internet_fact_checker.py`, `src/ai_providers.py`) and
proves or refutes the specification's claims about this logic.

Modelling conventions:
* Python floats are modelled as rationals (`ℚ`); Python ints as `ℤ`/`ℕ`.
* File-system and network effects are made explicit: a cache directory
  becomes an association list keyed by the cache key, and a call that may
  raise a Python exception becomes an `Except`-valued oracle parameter.
* SHA-256 fingerprints are modelled by the (injectively intended) data that
  is hashed, e.g. the string `provider ++ "|" ++ text`.
-/

namespace Filterize

/-- Python truthiness of an optional boolean (`None` is falsy), as used by
`r.get('verified', default)` on a key whose value is `True`, `False` or
`None`. -/
def pyTruthy : Option Bool → Bool
  | none => false
  | some b => b

/-- Python `int()` applied to a rational: truncation toward zero. -/
def pyInt (q : ℚ) : ℤ :=
  if 0 ≤ q then ⌊q⌋ else ⌈q⌉

/-- Python `s.lower()` (ASCII view). -/
def lowerStr (s : String) : String :=
  s.map Char.toLower

/-- Occurrence of `needle` as a contiguous run inside `hay` (character
lists). -/
def subOccurs (needle : List Char) : List Char → Bool
  | [] => needle.isEmpty
  | c :: t => needle.isPrefixOf (c :: t) || subOccurs needle t

/-- Python `needle in hay` on strings (substring containment). -/
def strContains (hay needle : String) : Bool :=
  subOccurs needle.toList hay.toList

/-!
## `src/ai_detection.py` — `AIContentDetector.analyze_ai_content`

The four text detectors each produce a sub-result dictionary; the
aggregation step (lines 46-93) folds them into the final detection result.
The sub-result shapes below mirror the dictionaries returned by
`_detect_watermarks`, `_analyze_perplexity`, `_calculate_reward_score` and
`_analyze_linguistic_patterns`.
-/

/-- Result of `_detect_watermarks`: `{'detected': bool, 'confidence': float}`. -/
structure WatermarkResult where
  detected : Bool
  confidence : ℚ
deriving DecidableEq

/-- Result of `_analyze_perplexity`: `{'score': float, 'indicates_ai': bool}`. -/
structure PerplexityResult where
  score : ℚ
  indicates_ai : Bool
deriving DecidableEq

/-- Result of `_calculate_reward_score`: `{'score': float, 'indicates_ai': bool}`. -/
structure RewardResult where
  score : ℚ
  indicates_ai : Bool
deriving DecidableEq

/-- Result of `_analyze_linguistic_patterns`:
`{'indicates_ai': bool, 'flags': list}`. -/
structure PatternResult where
  indicates_ai : Bool
  flags : List String
deriving DecidableEq

/-- The dictionary returned by `analyze_ai_content`. -/
structure DetectionResult where
  ai_probability : ℚ
  confidence : ℚ
  detection_methods : List String
  watermark_detected : Bool
  perplexity_score : ℚ
  reward_score : ℚ
  flags : List String
  explanation : String
deriving DecidableEq

/-- `AIContentDetector._generate_explanation`: probability-banded templates. -/
def generate_explanation (r : DetectionResult) : String :=
  if r.ai_probability < 3/10 then
    "Text appears to be human-written with natural variation and unpredictability."
  else if r.ai_probability < 7/10 then
    let methods := String.intercalate ", " r.detection_methods
    s!"Text shows some AI indicators ({methods}). Mixed human/AI content possible."
  else
    let methods := String.intercalate ", " r.detection_methods
    s!"High probability of AI generation detected via: {methods}. Consider verification."

/-- The aggregation step of `AIContentDetector.analyze_ai_content`
(lines 46-93): sequentially merge the four detector sub-results into one
`DetectionResult`, cap the probability at `1.0`, and set
`confidence = len(detection_methods) / 4`. -/
def analyze_core (w : WatermarkResult) (p : PerplexityResult)
    (rw : RewardResult) (pat : PatternResult) : DetectionResult :=
  let r0 : DetectionResult :=
    ⟨0, 0, [], false, 0, 0, [], ""⟩
  let r1 :=
    if w.detected then
      { r0 with
        watermark_detected := true
        ai_probability := r0.ai_probability + 4/10
        detection_methods := r0.detection_methods ++ ["watermark"]
        flags := r0.flags ++ ["watermark_detected"] }
    else r0
  let r2 := { r1 with perplexity_score := p.score }
  let r3 :=
    if p.indicates_ai then
      { r2 with
        ai_probability := r2.ai_probability + 3/10
        detection_methods := r2.detection_methods ++ ["perplexity"]
        flags := r2.flags ++ ["low_perplexity"] }
    else r2
  let r4 := { r3 with reward_score := rw.score }
  let r5 :=
    if rw.indicates_ai then
      { r4 with
        ai_probability := r4.ai_probability + 2/10
        detection_methods := r4.detection_methods ++ ["reward_model"]
        flags := r4.flags ++ ["high_reward_score"] }
    else r4
  let r6 :=
    if pat.indicates_ai then
      { r5 with
        ai_probability := r5.ai_probability + 1/10
        detection_methods := r5.detection_methods ++ ["linguistic_patterns"]
        flags := r5.flags ++ pat.flags }
    else r5
  let r7 :=
    { r6 with
      ai_probability := min 1 r6.ai_probability
      confidence := (r6.detection_methods.length : ℚ) / 4 }
  { r7 with explanation := generate_explanation r7 }

/-- The four text detectors of `AIContentDetector`, as pure functions of the
input text (each is a deterministic local heuristic in the source; their
internal regex arithmetic is not needed by any claim, only their purity and
result shape). -/
structure TextDetectors where
  detect_watermarks : String → WatermarkResult
  analyze_perplexity : String → PerplexityResult
  calculate_reward_score : String → RewardResult
  analyze_linguistic_patterns : String → PatternResult

/-- `AIContentDetector.analyze_ai_content` with its `detection_cache`
(lines 41-44, 95-97): the cache maps the content fingerprint — modelled by
the text itself, standing for its SHA-256 hex digest — to a previously
computed result; on a miss the result is computed and stored. Returns the
result together with the updated cache. -/
def analyze_ai_content (d : TextDetectors)
    (cache : List (String × DetectionResult)) (text : String) :
    DetectionResult × List (String × DetectionResult) :=
  match cache.lookup text with
  | some r => (r, cache)
  | none =>
    let r := analyze_core (d.detect_watermarks text) (d.analyze_perplexity text)
      (d.calculate_reward_score text) (d.analyze_linguistic_patterns text)
    (r, (text, r) :: cache)

/-!
## `src/enhanced_media_detection.py` — `analyze_image_enhanced`

The image aggregator (lines 126-192) runs four sub-detectors, accumulates
`confidence * weight` for each that fires, adds a base probability derived
from image characteristics, clamps to `[0,1]`, adds a random variance drawn
from `[-0.15, 0.15]`, clamps again, and sets
`confidence = min(0.95, len(methods)/4 + 0.2)`. The base probability and
the drawn variance are parameters of the model; the four sub-detector
results share one shape. -/

/-- A sub-result of one of the four enhanced image detectors:
`{'indicates_ai': bool, 'confidence': float, 'flags': list}`. -/
structure EnhancedSignal where
  indicates_ai : Bool
  confidence : ℚ
  flags : List String
deriving DecidableEq

/-- `self.thresholds['metadata_weight']`. -/
def metadata_weight : ℚ := 3/10

/-- `self.thresholds['visual_weight']`. -/
def visual_weight : ℚ := 1/4

/-- `self.thresholds['statistical_weight']`. -/
def statistical_weight : ℚ := 1/5

/-- `self.thresholds['compression_weight']`. -/
def compression_weight : ℚ := 3/20

/-- `max(0.0, min(1.0, x))`. -/
def clamp01 (x : ℚ) : ℚ := max 0 (min 1 x)

/-- The fields of the `analyze_image_enhanced` result dictionary that the
aggregation logic produces (image metadata and the free-text explanation
are not modelled). -/
structure EnhancedResult where
  ai_probability : ℚ
  confidence : ℚ
  detection_methods : List String
  flags : List String
deriving DecidableEq

/-- The aggregation step of `analyze_image_enhanced` (lines 142-189):
`base` is `_calculate_realistic_ai_probability(...)` and `variance` the
`random.uniform(-0.15, 0.15)` draw. -/
def analyze_image_enhanced_core (base : ℚ)
    (meta visual stats comp : EnhancedSignal) (variance : ℚ) : EnhancedResult :=
  let r0 : EnhancedResult := ⟨0, 0, [], []⟩
  let r1 :=
    if meta.indicates_ai then
      { r0 with
        ai_probability := r0.ai_probability + meta.confidence * metadata_weight
        detection_methods := r0.detection_methods ++ ["enhanced_metadata"]
        flags := r0.flags ++ meta.flags }
    else r0
  let r2 :=
    if visual.indicates_ai then
      { r1 with
        ai_probability := r1.ai_probability + visual.confidence * visual_weight
        detection_methods := r1.detection_methods ++ ["advanced_visual"]
        flags := r1.flags ++ visual.flags }
    else r1
  let r3 :=
    if stats.indicates_ai then
      { r2 with
        ai_probability := r2.ai_probability + stats.confidence * statistical_weight
        detection_methods := r2.detection_methods ++ ["statistical_anomaly"]
        flags := r2.flags ++ stats.flags }
    else r2
  let r4 :=
    if comp.indicates_ai then
      { r3 with
        ai_probability := r3.ai_probability + comp.confidence * compression_weight
        detection_methods := r3.detection_methods ++ ["enhanced_compression"]
        flags := r3.flags ++ comp.flags }
    else r3
  let r5 := { r4 with ai_probability := clamp01 (base + r4.ai_probability) }
  let r6 := { r5 with ai_probability := clamp01 (r5.ai_probability + variance) }
  { r6 with
    confidence := min (19/20) ((r6.detection_methods.length : ℚ) / 4 + 1/5) }

/-!
## `src/server.py` — provider cache and retry helpers

`_cache_key`, `_load_cached`, `_save_cached` and
`_call_provider_with_retry` (lines 121-181). The file-per-entry cache
directory is modelled as an association list from the cache key to an entry
holding the file's modification time and stored value; the SHA-256 key of
`provider | text` is modelled by the concatenation it hashes. Exceptions
raised by the provider call are modelled as `Except.error` values carrying
an error kind (the source does not inspect the kind) and a message. -/

/-- Classification of a provider failure, per the specification's error
taxonomy: transient (timeout, 5xx) versus permanent (missing credential,
malformed request). The source code never inspects this classification. -/
inductive ErrKind
  | transient
  | permanent
deriving DecidableEq

/-- A raised provider exception. -/
structure PErr where
  kind : ErrKind
  msg : String
deriving DecidableEq

/-- The legacy-format analysis dictionary returned by a successful
`analyze_text_with_provider` call (field selection justifying only what the
claims need). -/
structure PResp where
  score : ℤ
  flags : List String
deriving DecidableEq

/-- A cache file: its modification time and the JSON document it stores. -/
structure CacheEntry where
  mtime : ℚ
  value : PResp
deriving DecidableEq

/-- `_cache_key(provider_name, txt)`: the SHA-256 hex digest of
`provider | txt`, modelled by the hashed data itself. -/
def cache_key (provider txt : String) : String :=
  provider ++ "|" ++ txt

/-- `_load_cached(provider_name, txt, ttl)` (lines 133-146) at time `now`:
a missing file is a miss, an entry older than `ttl` is a miss (lazy
eviction), and an I/O failure while reading (`read_ok = false`) is a miss. -/
def load_cached (store : List (String × CacheEntry)) (provider txt : String)
    (now ttl : ℚ) (read_ok : Bool) : Option PResp :=
  match store.lookup (cache_key provider txt) with
  | none => none
  | some e =>
    if now - e.mtime > ttl then none
    else if read_ok then some e.value else none

/-- `_save_cached(provider_name, txt, data)` (lines 148-157) at time `now`:
writes the entry (prepending models overwriting the file, as `lookup` takes
the first match); an I/O failure while writing (`write_ok = false`) is
logged and swallowed, leaving the store unchanged. -/
def save_cached (store : List (String × CacheEntry)) (provider txt : String)
    (resp : PResp) (now : ℚ) (write_ok : Bool) : List (String × CacheEntry) :=
  if write_ok then (cache_key provider txt, ⟨now, resp⟩) :: store else store

/-- Trace of the retry loop of `_call_provider_with_retry`: the final value
(or the last exception re-raised after exhaustion), the number of provider
calls made, and the sequence of back-off sleeps performed. -/
structure RetryTrace where
  result : Except PErr (Option PResp)
  calls : ℕ
  sleeps : List ℚ

/-- The `for attempt in range(1, max_retries + 2)` loop of
`_call_provider_with_retry` (lines 165-181). `behave a` is the outcome of
the provider call on attempt `a` (a legacy dictionary, `None`, or a raised
exception); `left` counts the attempts still permitted including the
current one, so the loop is entered with `left = max_retries + 1`, and
`attempt ≤ max_retries` in the source corresponds to `left ≥ 2` here.
After a failed non-final attempt the loop sleeps
`backoff * 2 ^ (attempt - 1)` seconds. The `left = 0` branch is never
reached from `call_provider_with_retry` (which starts at
`max_retries + 1 ≥ 1`). -/
def retryGo (behave : ℕ → Except PErr (Option PResp)) (backoff : ℚ)
    (attempt : ℕ) : ℕ → RetryTrace
  | 0 => ⟨.error ⟨.transient, "unreachable"⟩, 0, []⟩
  | left + 1 =>
    match behave attempt with
    | .ok r => ⟨.ok r, 1, []⟩
    | .error e =>
      if left = 0 then ⟨.error e, 1, []⟩
      else
        let rest := retryGo behave backoff (attempt + 1) left
        ⟨rest.result, rest.calls + 1, backoff * 2 ^ (attempt - 1) :: rest.sleeps⟩

/-- Full outcome of `_call_provider_with_retry`: the returned value or
re-raised exception, how many times the provider was actually called, the
sleeps performed, and the cache store afterwards. -/
structure ProviderCallOutcome where
  result : Except PErr (Option PResp)
  provider_calls : ℕ
  sleeps : List ℚ
  store : List (String × CacheEntry)

/-- `_call_provider_with_retry(provider_name, txt, max_retries, backoff)`
(lines 159-181): check the cache first (with the source's default
`ttl = 86400` passed in as `ttl`); on a miss run the retry loop, and cache
the response only when it is a dictionary (`isinstance(resp, dict)`,
i.e. `some` here). On exhaustion the last exception is re-raised. -/
def call_provider_with_retry (store : List (String × CacheEntry))
    (provider txt : String) (now ttl : ℚ) (read_ok write_ok : Bool)
    (behave : ℕ → Except PErr (Option PResp)) (max_retries : ℕ)
    (backoff : ℚ) : ProviderCallOutcome :=
  match load_cached store provider txt now ttl read_ok with
  | some r => ⟨.ok (some r), 0, [], store⟩
  | none =>
    let t := retryGo behave backoff 1 (max_retries + 1)
    match t.result with
    | .ok (some r) =>
      ⟨.ok (some r), t.calls, t.sleeps, save_cached store provider txt r now write_ok⟩
    | .ok none => ⟨.ok none, t.calls, t.sleeps, store⟩
    | .error e => ⟨.error e, t.calls, t.sleeps, store⟩

/-!
## `src/internet_fact_checker.py` — related-article ranking

`_rank_and_deduplicate_articles` (lines 593-609): drop articles whose
lower-cased title was already seen (keeping first occurrences in order),
then `sort(key=lambda x: x['relevance_score'], reverse=True)`. Python's
sort is stable, and any two stable sorts under the same total preorder
agree, so the sort is modelled by Mathlib's stable `List.insertionSort`
under the relation "may come first", i.e. relevance at least as large. -/

/-- A related article (the fields the ranking logic reads, plus its
identity fields; summary/date/category/key_points are not modelled). -/
structure Article where
  title : String
  url : String
  source : String
  relevance_score : ℚ
deriving DecidableEq

/-- The sort relation of the ranking step: `a` may precede `b` when its
relevance score is at least as large (descending sort). -/
def artLE (a b : Article) : Prop :=
  b.relevance_score ≤ a.relevance_score

instance : DecidableRel artLE :=
  fun a b => inferInstanceAs (Decidable (b.relevance_score ≤ a.relevance_score))

instance : IsTotal Article artLE :=
  ⟨fun a b => le_total b.relevance_score a.relevance_score⟩

instance : IsTrans Article artLE :=
  ⟨fun _ _ _ h1 h2 => le_trans h2 h1⟩

/-- The de-duplication loop of `_rank_and_deduplicate_articles`
(lines 596-604), carrying the `seen_titles` set as the accumulator. -/
def dedupe_go (seen : List String) : List Article → List Article
  | [] => []
  | a :: rest =>
    if seen.contains (lowerStr a.title) then dedupe_go seen rest
    else a :: dedupe_go (lowerStr a.title :: seen) rest

/-- De-duplication by normalized (lower-cased) title, keeping first
occurrences in order. -/
def dedupe_by_title (l : List Article) : List Article :=
  dedupe_go [] l

/-- `_rank_and_deduplicate_articles(articles, original_content)`: the
`original_content` argument is unused by the source body and omitted. -/
def rank_and_deduplicate_articles (articles : List Article) : List Article :=
  (dedupe_by_title articles).insertionSort artLE

/-!
## `src/internet_fact_checker.py` — claim verification and `fact_check_content`

The pipeline inside `fact_check_content`'s `try` block (lines 22-64) runs
claim extraction, per-claim verification, topic lookup, scoring and
article search; any exception raised inside the block is caught and
answered with `_fallback_analysis`. Each step that performs work a Python
statement could fail on is modelled as an `Except`-valued oracle, making
the exception flow explicit; per-claim search failures are caught locally
inside `_verify_claim` and so never reach the top. -/

/-- One simulated search result (`_get_simulated_search_results`):
`verified` may be `True`, `False` or `None`. -/
structure SearchResult where
  title : String
  snippet : String
  source : String
  confidence : ℚ
  verified : Option Bool
  real_facts : List String
deriving DecidableEq

/-- The dictionary `_verify_claim` returns: `verified` is `True`, `False`
or `None`; `error` is set only on the exception path. -/
structure VerificationResult where
  claim : String
  verified : Option Bool
  confidence : ℚ
  sources : List String
  real_facts : List String
  contradictions : List String
  error : Option String
deriving DecidableEq

/-- `_analyze_search_results(claim, search_results)` (lines 266-285):
`verified`, `confidence`, `sources` and `real_facts` taken from the first
result, or the no-data defaults on an empty list. -/
def analyze_search_results (results : List SearchResult) :
    Option Bool × ℚ × List String × List String :=
  match results with
  | [] => (some false, 0, [], ["No verification data available"])
  | r :: _ => (r.verified, r.confidence, [r.source], r.real_facts)

/-- `_verify_claim(claim)` (lines 98-124): search then analyze; a raised
exception is caught locally and becomes a zero-confidence unverified
result, never failing the pipeline. -/
def verify_claim (search : String → Except String (List SearchResult))
    (claim : String) : VerificationResult :=
  match search claim with
  | .ok rs =>
    let (v, c, srcs, facts) := analyze_search_results rs
    ⟨claim, v, c, srcs, facts, [], none⟩
  | .error e =>
    ⟨claim, some false, 0, [], [s!"Unable to verify: {claim}"], [], some e⟩

/-- `_calculate_fact_score(verification_results)` (lines 326-349). -/
def calculate_fact_score (rs : List VerificationResult) : ℤ :=
  if rs = [] then 50
  else
    let total : ℚ := rs.foldl
      (fun acc r =>
        if pyTruthy r.verified then acc + r.confidence * 100
        else acc + (1 - r.confidence) * 30) 0
    let vcount := rs.countP (fun r => pyTruthy r.verified)
    if vcount = 0 then max 20 (pyInt (total / rs.length))
    else min 95 (max 10 (pyInt (total / rs.length)))

/-- An element of `disputed_claims`: the main path stores verification
dictionaries, `_fallback_analysis` stores a raw truncated-content string. -/
inductive DisputedEntry
  | res (r : VerificationResult)
  | raw (s : String)
deriving DecidableEq

/-- Project the verification dictionary out of a disputed entry. -/
def disputedRes : DisputedEntry → Option VerificationResult
  | .res r => some r
  | .raw _ => none

/-- The dictionary returned by `fact_check_content`; `fallback_mode` is
absent on the main path, modelled as `false` (Python `get` default). -/
structure FactCheckResult where
  fact_check_score : ℤ
  verified_claims : List VerificationResult
  disputed_claims : List DisputedEntry
  real_facts : List String
  sources_checked : ℕ
  internet_search_performed : Bool
  analysis_timestamp : ℚ
  fallback_mode : Bool
  related_articles : List Article
deriving DecidableEq

/-- `content[:100] + '...' if len(content) > 100 else content`. -/
def pyTruncate100 (content : String) : String :=
  if content.length > 100 then content.take 100 ++ "..." else content

/-- The error line of `_fallback_analysis`'s `real_facts`:
`f'Error: {error[:50]}...' if len(error) > 50 else error`. -/
def fallbackErrLine (error : String) : String :=
  if error.length > 50 then "Error: " ++ error.take 50 ++ "..." else error

/-- `_get_fallback_articles(content)` (lines 611-643), with the fields the
`Article` model carries. -/
def fallback_articles : List Article :=
  [⟨"Current News Analysis: Expert Verification Methods",
    "https://fact-check.com/verification-methods", "Fact-Check Institute", 80⟩,
   ⟨"Understanding Information Credibility in Digital Age",
    "https://digital-literacy.com/information-credibility",
    "Digital Literacy Foundation", 78⟩]

/-- `find_related_articles(content)` (lines 371-391): the gathered
candidate list (key-topic extraction plus per-topic search) is the oracle;
on success the candidates are ranked, de-duplicated and cut to five; a
raised exception is caught locally and answered with the fallback
articles. -/
def find_related_articles (candidates : Except String (List Article)) :
    List Article :=
  match candidates with
  | .ok arts => (rank_and_deduplicate_articles arts).take 5
  | .error _ => fallback_articles

/-- `_fallback_analysis(content, error)` (lines 351-369) at time `now`. -/
def fallback_analysis (content error : String) (now : ℚ) : FactCheckResult :=
  { fact_check_score := 50
    verified_claims := []
    disputed_claims := [.raw (pyTruncate100 content)]
    real_facts :=
      ["Internet fact-checking temporarily unavailable",
       "Analysis performed using local algorithms",
       "Recommend manual verification of claims",
       fallbackErrLine error]
    sources_checked := 0
    internet_search_performed := false
    analysis_timestamp := now
    fallback_mode := true
    related_articles := [] }

/-- The effectful steps of `fact_check_content`, as oracles: claim
extraction (`_extract_claims`), per-claim search (inside `_verify_claim`),
topic information (`_get_topic_information`), and the article candidates
gathered inside `find_related_articles`. -/
structure FCOracles where
  extract : Except String (List String)
  search : String → Except String (List SearchResult)
  topic : Except String (List String)
  candidates : Except String (List Article)

/-- `fact_check_content(content)` (lines 22-64): run the pipeline; any
exception escaping a step inside the `try` block yields
`_fallback_analysis`. On the main path `verified_claims` keeps the results
with truthy `verified`, `disputed_claims` those with falsy `verified`
(including `None`), `real_facts` is the per-claim facts followed by the
topic information cut to ten, and the score and related articles are
computed as in the source. -/
def fact_check_content (content : String) (o : FCOracles) (now : ℚ) :
    FactCheckResult :=
  match o.extract with
  | .error e => fallback_analysis content e now
  | .ok claims =>
    match o.topic with
    | .error e => fallback_analysis content e now
    | .ok tinfo =>
      let results := claims.map (verify_claim o.search)
      let real_facts := results.flatMap (fun r => r.real_facts) ++ tinfo
      { fact_check_score := calculate_fact_score results
        verified_claims := results.filter (fun r => pyTruthy r.verified)
        disputed_claims :=
          (results.filter (fun r => !pyTruthy r.verified)).map .res
        real_facts := real_facts.take 10
        sources_checked := results.length
        internet_search_performed := true
        analysis_timestamp := now
        fallback_mode := false
        related_articles := find_related_articles o.candidates }

/-!
## `src/server.py` — the `/api/analyze` route

`analyze()` (lines 104-249): validate the payload, then inside a `try`
block attempt the local model, then the external provider (each failure
caught and logged), fall back to `simple_analyze`, and attach the AI
detection result (its failure caught and replaced by an error marker). An
exception escaping the block — in particular a `simple_analyze` failure —
is answered by the outer handler as a 500 JSON error response, never
propagated. Each fallible step is an `Except`-valued oracle. -/

/-- The result dictionary of `simple_analyze` / the local model / the
provider, reduced to the fields the routing logic carries along. -/
structure SimpleResult where
  score : ℤ
  flags : List String
deriving DecidableEq

/-- The `ai_detection` field attached to the response: the detection
result, or the `{'error': 'AI detection unavailable'}` marker. -/
inductive AIDetectionField
  | ok (d : DetectionResult)
  | unavailable
deriving DecidableEq

/-- The JSON body of a successful `/api/analyze` response. -/
structure AnalyzePayload where
  result : SimpleResult
  used : String
  ai_detection : AIDetectionField
deriving DecidableEq

/-- An HTTP response of the `analyze` route: 200 with a payload, 400 for a
missing content field, or 500 from the outer exception handler. -/
inductive AnalyzeResponse
  | ok (p : AnalyzePayload)
  | badRequest (msg : String)
  | serverError (msg : String)
deriving DecidableEq

/-- The fallible steps of the `analyze` route, as oracles:
`local_available` is whether `local_model` imports; `provider` is the
`AI_PROVIDER` / `OPENAI_API_KEY`-derived provider name;
`provider_result` is the outcome of `_call_provider_with_retry` (a
dictionary, `None`, or a raised exception after retry exhaustion);
`heuristic` is `simple_analyze`; `ai_det` is `analyze_ai_content`. -/
structure AnalyzeOracles where
  local_available : Bool
  local_result : Except String SimpleResult
  provider : Option String
  provider_result : Except String (Option SimpleResult)
  heuristic : Except String SimpleResult
  ai_det : Except String DetectionResult

/-- `prefer in (None, 'auto', 'local')`. -/
def preferAllowsLocal (prefer : Option String) : Bool :=
  prefer = none || prefer = some "auto" || prefer = some "local"

/-- `prefer in (None, 'auto', 'provider')`. -/
def preferAllowsProvider (prefer : Option String) : Bool :=
  prefer = none || prefer = some "auto" || prefer = some "provider"

/-- Steps 1 and 2 of the `analyze` route body: try the local model, then
the external provider, each failure caught and logged. The pair carried
between steps is `(result, used)` exactly as in the source: `result`
starts as `None` with `used = 'heuristic'`. -/
def attempt_local_and_provider (prefer : Option String)
    (o : AnalyzeOracles) : Option SimpleResult × String :=
  let step1 : Option SimpleResult × String :=
    if o.local_available && preferAllowsLocal prefer then
      match o.local_result with
      | .ok r => (some r, "local")
      | .error _ => (none, "heuristic")
    else (none, "heuristic")
  match step1 with
  | (some r, u) => (some r, u)
  | (none, u) =>
    if (o.provider.isSome && preferAllowsProvider prefer)
        || prefer = some "provider" then
      match o.provider_result with
      | .ok (some r) => (some r, "provider")
      | .ok none => (none, u)
      | .error _ => (none, u)
    else (none, u)

/-- The `ai_detection` attachment step: its failure is caught and replaced
by the error marker. -/
def ai_detection_field (o : AnalyzeOracles) : AIDetectionField :=
  match o.ai_det with
  | .ok d => .ok d
  | .error _ => .unavailable

/-- The `/api/analyze` route body (lines 104-249): validate, try the local
model and the provider, fall back to `simple_analyze` (whose failure
reaches the outer handler and becomes a 500 response), attach the AI
detection field. -/
def analyze_route (text : String) (prefer : Option String)
    (o : AnalyzeOracles) : AnalyzeResponse :=
  if text = "" then .badRequest "content is required"
  else
    match attempt_local_and_provider prefer o with
    | (some r, u) => .ok ⟨r, u, ai_detection_field o⟩
    | (none, _) =>
      match o.heuristic with
      | .ok r => .ok ⟨r, "heuristic", ai_detection_field o⟩
      | .error e => .serverError e

/-!
## `src/ai_providers.py` — `MultiAIAgent` routing

`MultiAIAgent.__init__` registers five providers in a fixed order;
`is_available` is `bool(api_key)` for the three keyed providers, `False`
for the Copilot placeholder, and unconditionally `True` for
`SpecializedProvider` (lines 397-398). `select_best_provider`
(lines 33-80) filters to the available providers and routes by task and
content; `analyze_content` (lines 82-127) calls the selected provider and
walks a fixed fallback order on failure. -/

/-- The environment keys the `is_available` checks read. -/
structure ProviderEnv where
  openai_key : Bool
  anthropic_key : Bool
  google_key : Bool
deriving DecidableEq

/-- The provider registry of `MultiAIAgent.__init__`, in registration
order, paired with each provider's `is_available()` value:
`OpenAIProvider`/`AnthropicProvider`/`GeminiProvider` check their API key,
`CopilotProvider.is_available` returns `False`, and
`SpecializedProvider.is_available` returns `True` unconditionally. -/
def providers_list (e : ProviderEnv) : List (String × Bool) :=
  [("openai", e.openai_key), ("anthropic", e.anthropic_key),
   ("gemini", e.google_key), ("copilot", false), ("specialized", true)]

/-- `is_available()` of the named provider. -/
def provider_is_available (e : ProviderEnv) (name : String) : Bool :=
  ((providers_list e).lookup name).getD false

/-- The `available` list of `select_best_provider` (lines 46-47). -/
def available_providers (e : ProviderEnv) : List String :=
  ((providers_list e).filter (fun p => p.2)).map (fun p => p.1)

/-- `select_best_provider(content_type, content, task)` (lines 33-80).
Inside a matched task/content branch whose preferred providers are all
unavailable, control falls through to the final
`available[0] if available else None`. -/
def select_best_provider (e : ProviderEnv)
    (content_type content task : String) : Option String :=
  let available := available_providers e
  if available.isEmpty then none
  else if task == "fact_check" then
    if available.contains "anthropic" then some "anthropic"
    else if available.contains "openai" then some "openai"
    else available.head?
  else if content_type == "image" then
    if available.contains "openai" then some "openai"
    else if available.contains "gemini" then some "gemini"
    else available.head?
  else if task == "summarize" then
    if available.contains "gemini" then some "gemini"
    else if available.contains "anthropic" then some "anthropic"
    else available.head?
  else if strContains (lowerStr content) "scientific"
      || strContains (lowerStr content) "research" then
    if available.contains "anthropic" then some "anthropic"
    else available.head?
  else available.head?

/-- The outcome of `MultiAIAgent.analyze_content`: the
`'No AI providers available'` error dictionary, a result served by the
selected provider, a result served by a fallback provider (marked
`"<name> (fallback)"` in the source), or the final
`'Analysis failed: ...'` error dictionary. -/
inductive AnalyzeOutcome
  | noProviders
  | fromProvider (name : String)
  | fromFallback (name : String)
  | failed (msg : String) (provider_used : String)
deriving DecidableEq

/-- The fallback loop of `analyze_content` (lines 111-121): walk
`['openai', 'anthropic', 'gemini']`, skip the primary provider, try each
available one, swallow its exception and continue on failure. -/
def try_fallbacks (e : ProviderEnv) (behave : String → Except String Unit)
    (primary err : String) : List String → AnalyzeOutcome
  | [] => .failed ("Analysis failed: " ++ err) primary
  | f :: rest =>
    if f == primary then try_fallbacks e behave primary err rest
    else if provider_is_available e f then
      match behave f with
      | .ok _ => .fromFallback f
      | .error _ => try_fallbacks e behave primary err rest
    else try_fallbacks e behave primary err rest

/-- `analyze_content(content, content_type, task)` (lines 82-127):
`behave p` is the outcome of `self.providers[p].analyze(...)`. -/
def analyze_content (e : ProviderEnv) (content content_type task : String)
    (behave : String → Except String Unit) : AnalyzeOutcome :=
  match select_best_provider e content_type content task with
  | none => .noProviders
  | some p =>
    match behave p with
    | .ok _ => .fromProvider p
    | .error err => try_fallbacks e behave p err ["openai", "anthropic", "gemini"]

/-!
## Concrete fixtures used by witness theorems
-/

/-- A sample search oracle: a fact-database hit for one claim, the default
"requires verification" result (with `verified = None`) for the rest. -/
def sampleSearch : String → Except String (List SearchResult) := fun c =>
  if c = "vaccines are safe" then
    .ok [⟨"Fact-check: Vaccine", "Verified", "Fact-checking database",
      9/10, some true,
      ["Vaccines undergo rigorous clinical trials before approval"]⟩]
  else
    .ok [⟨"Search results for: mystery",
      "Information requires verification from authoritative sources",
      "General search", 1/2, none,
      ["Claim requires verification from authoritative sources"]⟩]

/-- Sample fact-check oracles: two extracted claims, one verified and one
undetermined. -/
def sampleFCOracles : FCOracles :=
  ⟨.ok ["vaccines are safe", "mystery"], sampleSearch,
   .ok ["Topic analysis completed for: General Content Analysis"], .ok []⟩

/-!
## Helper lemmas
-/

lemma clamp01_nonneg (x : ℚ) : 0 ≤ clamp01 x :=
  le_max_left 0 _

lemma clamp01_le_one (x : ℚ) : clamp01 x ≤ 1 :=
  max_le zero_le_one (min_le_left 1 x)

/-- Closed form of the probability the `ai_detection` aggregator emits:
each fired detector contributes its fixed weight, independent of the
signal's confidence, and the sum is capped at `1`. -/
lemma analyze_core_prob (w : WatermarkResult) (p : PerplexityResult)
    (rw : RewardResult) (pat : PatternResult) :
    (analyze_core w p rw pat).ai_probability =
      min 1 ((if w.detected then (4 : ℚ)/10 else 0) +
        (if p.indicates_ai then (3 : ℚ)/10 else 0) +
        (if rw.indicates_ai then (2 : ℚ)/10 else 0) +
        (if pat.indicates_ai then (1 : ℚ)/10 else 0)) := by
  rcases w with ⟨wd, wc⟩
  rcases p with ⟨ps, pi⟩
  rcases rw with ⟨rs, ri⟩
  rcases pat with ⟨qi, qf⟩
  cases wd <;> cases pi <;> cases ri <;> cases qi <;>
    simp [analyze_core]

/-- Closed form of the confidence the `ai_detection` aggregator emits:
the number of fired detectors divided by four, with no floor. -/
lemma analyze_core_conf (w : WatermarkResult) (p : PerplexityResult)
    (rw : RewardResult) (pat : PatternResult) :
    (analyze_core w p rw pat).confidence =
      (((if w.detected then 1 else 0) + (if p.indicates_ai then 1 else 0) +
        (if rw.indicates_ai then 1 else 0) +
        (if pat.indicates_ai then 1 else 0) : ℕ) : ℚ) / 4 := by
  rcases w with ⟨wd, wc⟩
  rcases p with ⟨ps, pi⟩
  rcases rw with ⟨rs, ri⟩
  rcases pat with ⟨qi, qf⟩
  cases wd <;> cases pi <;> cases ri <;> cases qi <;>
    simp [analyze_core]

/-- Closed form of the probability the enhanced image aggregator emits:
fired signals contribute `confidence * weight`, the base probability is
added and the sum clamped, then the variance is added and clamped again. -/
lemma enhanced_core_prob (base : ℚ) (meta visual stats comp : EnhancedSignal)
    (v : ℚ) :
    (analyze_image_enhanced_core base meta visual stats comp v).ai_probability =
      clamp01 (clamp01 (base +
        ((if meta.indicates_ai then meta.confidence * metadata_weight else 0) +
         (if visual.indicates_ai then visual.confidence * visual_weight else 0) +
         (if stats.indicates_ai then stats.confidence * statistical_weight else 0) +
         (if comp.indicates_ai then comp.confidence * compression_weight else 0))) + v) := by
  rcases meta with ⟨mi, mc, mf⟩
  rcases visual with ⟨vi, vc, vf⟩
  rcases stats with ⟨si, sc, sf⟩
  rcases comp with ⟨ci, cc, cf⟩
  cases mi <;> cases vi <;> cases si <;> cases ci <;>
    simp [analyze_image_enhanced_core]

/-- Closed form of the confidence the enhanced image aggregator emits. -/
lemma enhanced_core_conf (base : ℚ) (meta visual stats comp : EnhancedSignal)
    (v : ℚ) :
    (analyze_image_enhanced_core base meta visual stats comp v).confidence =
      min (19/20)
        ((((if meta.indicates_ai then 1 else 0) +
           (if visual.indicates_ai then 1 else 0) +
           (if stats.indicates_ai then 1 else 0) +
           (if comp.indicates_ai then 1 else 0) : ℕ) : ℚ) / 4 + 1/5) := by
  rcases meta with ⟨mi, mc, mf⟩
  rcases visual with ⟨vi, vc, vf⟩
  rcases stats with ⟨si, sc, sf⟩
  rcases comp with ⟨ci, cc, cf⟩
  cases mi <;> cases vi <;> cases si <;> cases ci <;>
    simp [analyze_image_enhanced_core]

/-!
## Claim C1
-/

/-- C1, counterexample. The claim states the aggregated probability is the
sum of `weight[detector] * confidence` over fired signals, clamped to
`[0,1]`. For a fired watermark signal of confidence `1/2` (and no other
fired signal) the `ai_detection` aggregator outputs `0.4` — the full
watermark weight — whereas the claimed formula gives
`min 1 (0.4 * 0.5) = 0.2`. -/
theorem c1_counterexample :
    (analyze_core ⟨true, 1/2⟩ ⟨100, false⟩ ⟨50, false⟩ ⟨false, []⟩).ai_probability
        = 2/5 ∧
    ¬ ((analyze_core ⟨true, 1/2⟩ ⟨100, false⟩ ⟨50, false⟩
        ⟨false, []⟩).ai_probability =
      min 1 ((4/10 : ℚ) * (1/2) + 0 + 0 + 0)) := by
  constructor
  · rw [analyze_core_prob]; norm_num
  · rw [analyze_core_prob]; norm_num

/-- C1, amended. For every list of detector signals: the `ai_detection`
aggregator's probability is the sum of the *fixed* weights (watermark 0.4,
perplexity 0.3, reward 0.2, linguistic patterns 0.1) of the fired signals,
independent of their confidences, capped at 1; the enhanced image
aggregator's probability is the base probability plus the sum of
`confidence * weight` over fired signals, clamped to `[0,1]`, plus the
variance, clamped again; and in both aggregators the resulting probability
and confidence lie in `[0,1]`. -/
theorem c1_amended_aggregator_probability (w : WatermarkResult)
    (p : PerplexityResult) (rw : RewardResult) (pat : PatternResult)
    (base : ℚ) (meta visual stats comp : EnhancedSignal) (v : ℚ) :
    ((analyze_core w p rw pat).ai_probability =
      min 1 ((if w.detected then (4 : ℚ)/10 else 0) +
        (if p.indicates_ai then (3 : ℚ)/10 else 0) +
        (if rw.indicates_ai then (2 : ℚ)/10 else 0) +
        (if pat.indicates_ai then (1 : ℚ)/10 else 0)) ∧
     0 ≤ (analyze_core w p rw pat).ai_probability ∧
     (analyze_core w p rw pat).ai_probability ≤ 1 ∧
     0 ≤ (analyze_core w p rw pat).confidence ∧
     (analyze_core w p rw pat).confidence ≤ 1) ∧
    ((analyze_image_enhanced_core base meta visual stats comp v).ai_probability =
      clamp01 (clamp01 (base +
        ((if meta.indicates_ai then meta.confidence * metadata_weight else 0) +
         (if visual.indicates_ai then visual.confidence * visual_weight else 0) +
         (if stats.indicates_ai then stats.confidence * statistical_weight else 0) +
         (if comp.indicates_ai then comp.confidence * compression_weight else 0)))
        + v) ∧
     0 ≤ (analyze_image_enhanced_core base meta visual stats comp v).ai_probability ∧
     (analyze_image_enhanced_core base meta visual stats comp v).ai_probability ≤ 1 ∧
     0 ≤ (analyze_image_enhanced_core base meta visual stats comp v).confidence ∧
     (analyze_image_enhanced_core base meta visual stats comp v).confidence ≤ 1) := by
  refine ⟨⟨analyze_core_prob w p rw pat, ?_, ?_, ?_, ?_⟩,
    enhanced_core_prob base meta visual stats comp v, ?_, ?_, ?_, ?_⟩
  · rw [analyze_core_prob]
    refine le_min zero_le_one ?_
    split_ifs <;> norm_num
  · rw [analyze_core_prob]
    exact min_le_left _ _
  · rw [analyze_core_conf]
    positivity
  · rw [analyze_core_conf]
    rw [div_le_one (by norm_num)]
    have h4 : ((if w.detected then 1 else 0) + (if p.indicates_ai then 1 else 0) +
        (if rw.indicates_ai then 1 else 0) +
        (if pat.indicates_ai then 1 else 0) : ℕ) ≤ 4 := by
      split_ifs <;> norm_num
    calc ((_ : ℕ) : ℚ) ≤ ((4 : ℕ) : ℚ) := by exact_mod_cast h4
      _ = 4 := by norm_num
  · rw [enhanced_core_prob]
    exact clamp01_nonneg _
  · rw [enhanced_core_prob]
    exact clamp01_le_one _
  · rw [enhanced_core_conf]
    refine le_min (by norm_num) ?_
    positivity
  · rw [enhanced_core_conf]
    exact le_trans (min_le_left _ _) (by norm_num)

/-!
## Claim C2
-/

/-- C2, counterexample. The claim states that when zero signals fired the
confidence is a small nonzero floor (e.g. 0.2). In `ai_detection`, with no
fired signal the aggregator reports `detection_methods = []` and
`confidence = 0 / 4 = 0` — there is no floor. -/
theorem c2_counterexample :
    (analyze_core ⟨false, 0⟩ ⟨100, false⟩ ⟨50, false⟩
      ⟨false, []⟩).detection_methods = [] ∧
    (analyze_core ⟨false, 0⟩ ⟨100, false⟩ ⟨50, false⟩
      ⟨false, []⟩).confidence = 0 := by
  constructor <;> simp [analyze_core]

/-- C2, amended. The `ai_detection` aggregator's confidence is
`count(fired) / 4` with no floor — zero fired signals give confidence `0`.
Only the enhanced image aggregator has a floor: its confidence is
`min(0.95, count(fired)/4 + 0.2)`, which is `0.2` when zero signals
fired. -/
theorem c2_amended_aggregator_confidence (w : WatermarkResult)
    (p : PerplexityResult) (rw : RewardResult) (pat : PatternResult)
    (base : ℚ) (meta visual stats comp : EnhancedSignal) (v : ℚ) :
    ((analyze_core w p rw pat).confidence =
      (((if w.detected then 1 else 0) + (if p.indicates_ai then 1 else 0) +
        (if rw.indicates_ai then 1 else 0) +
        (if pat.indicates_ai then 1 else 0) : ℕ) : ℚ) / 4) ∧
    (w.detected = false → p.indicates_ai = false → rw.indicates_ai = false →
      pat.indicates_ai = false → (analyze_core w p rw pat).confidence = 0) ∧
    ((analyze_image_enhanced_core base meta visual stats comp v).confidence =
      min (19/20)
        ((((if meta.indicates_ai then 1 else 0) +
           (if visual.indicates_ai then 1 else 0) +
           (if stats.indicates_ai then 1 else 0) +
           (if comp.indicates_ai then 1 else 0) : ℕ) : ℚ) / 4 + 1/5)) ∧
    (meta.indicates_ai = false → visual.indicates_ai = false →
      stats.indicates_ai = false → comp.indicates_ai = false →
      (analyze_image_enhanced_core base meta visual stats comp v).confidence
        = 1/5) := by
  refine ⟨analyze_core_conf w p rw pat, ?_, enhanced_core_conf base meta visual stats comp v, ?_⟩
  · intro h1 h2 h3 h4
    rw [analyze_core_conf, h1, h2, h3, h4]
    norm_num
  · intro h1 h2 h3 h4
    rw [enhanced_core_conf, h1, h2, h3, h4]
    norm_num

/-- C2, witness: the amended theorem applied at a zero-fired input gives
confidence `0` for the text aggregator and the `0.2` floor only for the
image aggregator. -/
theorem c2_amended_aggregator_confidence_witness :
    (analyze_core ⟨false, 0⟩ ⟨100, false⟩ ⟨50, false⟩
      ⟨false, []⟩).confidence = 0 ∧
    (analyze_image_enhanced_core 0 ⟨false, 0, []⟩ ⟨false, 0, []⟩
      ⟨false, 0, []⟩ ⟨false, 0, []⟩ 0).confidence = 1/5 :=
  ⟨(c2_amended_aggregator_confidence ⟨false, 0⟩ ⟨100, false⟩ ⟨50, false⟩
      ⟨false, []⟩ 0 ⟨false, 0, []⟩ ⟨false, 0, []⟩ ⟨false, 0, []⟩
      ⟨false, 0, []⟩ 0).2.1 rfl rfl rfl rfl,
   (c2_amended_aggregator_confidence ⟨false, 0⟩ ⟨100, false⟩ ⟨50, false⟩
      ⟨false, []⟩ 0 ⟨false, 0, []⟩ ⟨false, 0, []⟩ ⟨false, 0, []⟩
      ⟨false, 0, []⟩ 0).2.2.2 rfl rfl rfl rfl⟩

/-- One-step unfolding of the retry loop. -/
lemma retryGo_succ (behave : ℕ → Except PErr (Option PResp)) (backoff : ℚ)
    (attempt left : ℕ) :
    retryGo behave backoff attempt (left + 1) =
      match behave attempt with
      | .ok r => ⟨.ok r, 1, []⟩
      | .error e =>
        if left = 0 then ⟨.error e, 1, []⟩
        else
          let rest := retryGo behave backoff (attempt + 1) left
          ⟨rest.result, rest.calls + 1,
           backoff * 2 ^ (attempt - 1) :: rest.sleeps⟩ := rfl

/-- When every attempt in the window fails, the retry loop makes exactly
`left` calls, sleeps `backoff * 2 ^ (attempt - 1)` after every attempt but
the last, and re-raises the last attempt's exception. -/
lemma retryGo_all_fail (behave : ℕ → Except PErr (Option PResp))
    (backoff : ℚ) (es : ℕ → PErr) :
    ∀ left attempt, 1 ≤ left →
      (∀ a, attempt ≤ a → a < attempt + left → behave a = .error (es a)) →
      retryGo behave backoff attempt left =
        ⟨.error (es (attempt + left - 1)), left,
         (List.range' attempt (left - 1)).map
           (fun a => backoff * 2 ^ (a - 1))⟩ := by
  intro left
  induction left with
  | zero => intro attempt h; omega
  | succ k ih =>
    intro attempt _ hf
    cases k with
    | zero =>
      have hb : behave attempt = .error (es attempt) :=
        hf attempt le_rfl (by omega)
      simp [retryGo_succ, hb]
    | succ m =>
      have hb : behave attempt = .error (es attempt) :=
        hf attempt le_rfl (by omega)
      have hrest := ih (attempt + 1) (by omega)
        (fun a h1 h2 => hf a (by omega) (by omega))
      have h1 : attempt + 1 + (m + 1) - 1 = attempt + (m + 1 + 1) - 1 := by
        omega
      have hr : List.range' attempt (m + 1) =
          attempt :: List.range' (attempt + 1) m := List.range'_succ _ _ _
      rw [retryGo_succ, hb]
      simp [hrest, RetryTrace.mk.injEq, h1, hr]

/-!
## Claim C4
-/

/-- C4. On a cache miss, a provider whose attempts all fail with transient
errors is called exactly `max_retries + 1` times before the exception
reaches the caller (triggering fallback), and the loop sleeps
`backoff * 2 ^ (attempt - 1)` seconds after each attempt
`1, ..., max_retries`; the last attempt's exception is the one
re-raised. -/
theorem c4_transient_retry_count_and_backoff
    (store : List (String × CacheEntry)) (provider txt : String) (now : ℚ)
    (read_ok write_ok : Bool) (behave : ℕ → Except PErr (Option PResp))
    (max_retries : ℕ) (backoff : ℚ) (es : ℕ → String)
    (hmiss : load_cached store provider txt now 86400 read_ok = none)
    (hfail : ∀ a, 1 ≤ a → a ≤ max_retries + 1 →
      behave a = .error ⟨.transient, es a⟩) :
    (call_provider_with_retry store provider txt now 86400 read_ok write_ok
      behave max_retries backoff).provider_calls = max_retries + 1 ∧
    (call_provider_with_retry store provider txt now 86400 read_ok write_ok
      behave max_retries backoff).sleeps =
      (List.range' 1 max_retries).map (fun a => backoff * 2 ^ (a - 1)) ∧
    (call_provider_with_retry store provider txt now 86400 read_ok write_ok
      behave max_retries backoff).result =
      .error ⟨.transient, es (max_retries + 1)⟩ := by
  have ht := retryGo_all_fail behave backoff
    (fun a => ⟨.transient, es a⟩) (max_retries + 1) 1 (by omega)
    (fun a h1 h2 => hfail a h1 (by omega))
  have h1 : 1 + (max_retries + 1) - 1 = max_retries + 1 := by omega
  have h2 : max_retries + 1 - 1 = max_retries := by omega
  rw [h1, h2] at ht
  simp [call_provider_with_retry, hmiss, ht]

/-- C4, witness: with `max_retries = 2` and `backoff = 0.6` a provider
failing every attempt with a timeout is called three times, with sleeps
`0.6` and `1.2` seconds. -/
theorem c4_transient_retry_count_and_backoff_witness :
    load_cached [] "openai" "text to check" 0 86400 true = none ∧
    (call_provider_with_retry [] "openai" "text to check" 0 86400 true true
      (fun _ => .error ⟨.transient, "timeout"⟩) 2 (3/5)).provider_calls
      = 2 + 1 ∧
    (call_provider_with_retry [] "openai" "text to check" 0 86400 true true
      (fun _ => .error ⟨.transient, "timeout"⟩) 2 (3/5)).sleeps =
      (List.range' 1 2).map (fun a => (3/5 : ℚ) * 2 ^ (a - 1)) ∧
    (call_provider_with_retry [] "openai" "text to check" 0 86400 true true
      (fun _ => .error ⟨.transient, "timeout"⟩) 2 (3/5)).result =
      .error ⟨.transient, "timeout"⟩ := by
  have h := c4_transient_retry_count_and_backoff [] "openai" "text to check"
    0 true true (fun _ => .error ⟨.transient, "timeout"⟩) 2 (3/5)
    (fun _ => "timeout") rfl (fun a h1 h2 => rfl)
  exact ⟨rfl, h.1, h.2.1, h.2.2⟩

/-!
## Claim C5
-/

/-- C5, counterexample. The claim states a permanent error (e.g. a missing
credential) is never retried, so the provider would be called exactly once.
With the defaults (`max_retries = 2`, `backoff = 0.6`) a provider that
always raises the permanent `"OpenAI API key not configured"` error is in
fact called three times, with two back-off sleeps in between — the retry
loop of `_call_provider_with_retry` never classifies the exception. -/
theorem c5_counterexample :
    (call_provider_with_retry [] "openai" "content" 0 86400 true true
      (fun _ => .error ⟨.permanent, "OpenAI API key not configured"⟩) 2
      (3/5)).provider_calls = 3 ∧
    (call_provider_with_retry [] "openai" "content" 0 86400 true true
      (fun _ => .error ⟨.permanent, "OpenAI API key not configured"⟩) 2
      (3/5)).sleeps ≠ [] ∧
    (3 : ℕ) ≠ 1 := by
  refine ⟨rfl, ?_, by decide⟩
  simp [call_provider_with_retry, load_cached, retryGo_succ]

/-- C5, amended. The router performs no error classification at all: every
failing provider call — permanent errors such as missing credentials
included — is retried exactly like a transient one, and fallback triggers
only after `max_retries + 1` failed calls, with the usual back-off sleeps
in between. -/
theorem c5_amended_no_error_classification
    (store : List (String × CacheEntry)) (provider txt : String) (now : ℚ)
    (read_ok write_ok : Bool) (behave : ℕ → Except PErr (Option PResp))
    (max_retries : ℕ) (backoff : ℚ) (es : ℕ → PErr)
    (hmiss : load_cached store provider txt now 86400 read_ok = none)
    (hfail : ∀ a, 1 ≤ a → a ≤ max_retries + 1 → behave a = .error (es a)) :
    (call_provider_with_retry store provider txt now 86400 read_ok write_ok
      behave max_retries backoff).provider_calls = max_retries + 1 ∧
    (call_provider_with_retry store provider txt now 86400 read_ok write_ok
      behave max_retries backoff).sleeps =
      (List.range' 1 max_retries).map (fun a => backoff * 2 ^ (a - 1)) ∧
    (call_provider_with_retry store provider txt now 86400 read_ok write_ok
      behave max_retries backoff).result = .error (es (max_retries + 1)) := by
  have ht := retryGo_all_fail behave backoff es (max_retries + 1) 1 (by omega)
    (fun a h1 h2 => hfail a h1 (by omega))
  have h1 : 1 + (max_retries + 1) - 1 = max_retries + 1 := by omega
  have h2 : max_retries + 1 - 1 = max_retries := by omega
  rw [h1, h2] at ht
  simp [call_provider_with_retry, hmiss, ht]

/-- C5, witness: a provider permanently failing with a missing credential
is retried twice (three calls in total) before fallback. -/
theorem c5_amended_no_error_classification_witness :
    load_cached [] "openai" "content" 0 86400 true = none ∧
    (call_provider_with_retry [] "openai" "content" 0 86400 true true
      (fun _ => .error ⟨.permanent, "OpenAI API key not configured"⟩) 2
      (3/5)).provider_calls = 2 + 1 ∧
    (call_provider_with_retry [] "openai" "content" 0 86400 true true
      (fun _ => .error ⟨.permanent, "OpenAI API key not configured"⟩) 2
      (3/5)).result =
      .error ⟨.permanent, "OpenAI API key not configured"⟩ := by
  have h := c5_amended_no_error_classification [] "openai" "content" 0 true
    true (fun _ => .error ⟨.permanent, "OpenAI API key not configured"⟩) 2
    (3/5) (fun _ => ⟨.permanent, "OpenAI API key not configured"⟩) rfl
    (fun a h1 h2 => rfl)
  exact ⟨rfl, h.1, h.2.2⟩

/-!
## Claim C6
-/

/-- C6. Lazy eviction and I/O-error tolerance of the provider cache: an
entry whose age `now - mtime` exceeds the TTL reads as a miss; an I/O
failure during a read is a miss; an I/O failure during a write leaves the
store unchanged; and the enclosing `_call_provider_with_retry` returns the
same result whether or not the cache write succeeds — a failed write never
fails the request. -/
theorem c6_cache_lazy_eviction_and_io_miss :
    (∀ (store : List (String × CacheEntry)) (provider txt : String)
       (now ttl : ℚ) (e : CacheEntry) (read_ok : Bool),
      store.lookup (cache_key provider txt) = some e → now - e.mtime > ttl →
      load_cached store provider txt now ttl read_ok = none) ∧
    (∀ (store : List (String × CacheEntry)) (provider txt : String)
       (now ttl : ℚ),
      load_cached store provider txt now ttl false = none) ∧
    (∀ (store : List (String × CacheEntry)) (provider txt : String)
       (resp : PResp) (now : ℚ),
      save_cached store provider txt resp now false = store) ∧
    (∀ (store : List (String × CacheEntry)) (provider txt : String)
       (now ttl : ℚ) (read_ok : Bool)
       (behave : ℕ → Except PErr (Option PResp)) (max_retries : ℕ)
       (backoff : ℚ),
      (call_provider_with_retry store provider txt now ttl read_ok false
        behave max_retries backoff).result =
      (call_provider_with_retry store provider txt now ttl read_ok true
        behave max_retries backoff).result) := by
  refine ⟨?_, ?_, ?_, ?_⟩
  · intro store provider txt now ttl e read_ok hl hgt
    simp [load_cached, hl, hgt]
  · intro store provider txt now ttl
    unfold load_cached
    cases h : store.lookup (cache_key provider txt) with
    | none => rfl
    | some e => simp
  · intro store provider txt resp now
    simp [save_cached]
  · intro store provider txt now ttl read_ok behave max_retries backoff
    cases h : load_cached store provider txt now ttl read_ok with
    | some r => simp [call_provider_with_retry, h]
    | none =>
      simp only [call_provider_with_retry, h]
      cases hr : (retryGo behave backoff 1 (max_retries + 1)).result with
      | error e => simp [hr]
      | ok o => cases o <;> simp [hr]

/-- C6, witness: a one-day-old default-TTL entry read 100000 seconds later
is a miss; a read with failing I/O is a miss. -/
theorem c6_cache_lazy_eviction_and_io_miss_witness :
    load_cached [(cache_key "openai" "txt", ⟨0, ⟨50, []⟩⟩)] "openai" "txt"
      100000 86400 true = none ∧
    load_cached [(cache_key "openai" "txt", ⟨0, ⟨50, []⟩⟩)] "openai" "txt"
      100 86400 false = none :=
  ⟨c6_cache_lazy_eviction_and_io_miss.1 _ "openai" "txt" 100000 86400
      ⟨0, ⟨50, []⟩⟩ true rfl (by norm_num),
   c6_cache_lazy_eviction_and_io_miss.2.1 _ "openai" "txt" 100 86400⟩

/-!
## Claim C8
-/

/-- C8. Cache idempotence of `analyze`. For the pure-local detector path,
`analyze_ai_content`'s process-lifetime cache (no TTL) makes a repeated
call with the same text return the identical result and leave the cache
unchanged. For the provider path, after a first call that filled the cache
at time `t1`, a second call within the TTL (`t2 - t1 ≤ ttl`) returns the
identical cached response and performs zero provider calls, regardless of
how the provider would now behave. -/
theorem c8_cache_idempotence :
    (∀ (d : TextDetectors) (cache : List (String × DetectionResult))
       (text : String),
      (analyze_ai_content d (analyze_ai_content d cache text).2 text).1 =
        (analyze_ai_content d cache text).1 ∧
      (analyze_ai_content d (analyze_ai_content d cache text).2 text).2 =
        (analyze_ai_content d cache text).2) ∧
    (∀ (store : List (String × CacheEntry)) (provider txt : String)
       (t1 t2 ttl : ℚ) (write_ok2 : Bool)
       (behave1 behave2 : ℕ → Except PErr (Option PResp)) (m1 m2 : ℕ)
       (b1 b2 : ℚ) (r : PResp),
      load_cached store provider txt t1 ttl true = none →
      behave1 1 = .ok (some r) →
      ¬ (t2 - t1 > ttl) →
      (call_provider_with_retry store provider txt t1 ttl true true behave1
        m1 b1).result = .ok (some r) ∧
      (call_provider_with_retry
        (call_provider_with_retry store provider txt t1 ttl true true behave1
          m1 b1).store provider txt t2 ttl true write_ok2 behave2 m2
        b2).result = .ok (some r) ∧
      (call_provider_with_retry
        (call_provider_with_retry store provider txt t1 ttl true true behave1
          m1 b1).store provider txt t2 ttl true write_ok2 behave2 m2
        b2).provider_calls = 0) := by
  constructor
  · intro d cache text
    cases h : cache.lookup text with
    | some r => simp [analyze_ai_content, h]
    | none => simp [analyze_ai_content, h, List.lookup]
  · intro store provider txt t1 t2 ttl write_ok2 behave1 behave2 m1 m2 b1 b2
      r hmiss hok htime
    have hretry : retryGo behave1 b1 1 (m1 + 1) = ⟨.ok (some r), 1, []⟩ := by
      rw [retryGo_succ, hok]
    have h1 : call_provider_with_retry store provider txt t1 ttl true true
        behave1 m1 b1 =
        ⟨.ok (some r), 1, [], (cache_key provider txt, ⟨t1, r⟩) :: store⟩ := by
      simp [call_provider_with_retry, hmiss, hretry, save_cached]
    have hload : load_cached ((cache_key provider txt, ⟨t1, r⟩) :: store)
        provider txt t2 ttl true = some r := by
      simp [load_cached, List.lookup, htime]
    rw [h1]
    exact ⟨rfl, by simp [call_provider_with_retry, hload], by
      simp [call_provider_with_retry, hload]⟩

/-- C8, witness: a concrete provider response cached at time `0` is served
unchanged, with zero provider calls, by a second request at time `100`. -/
theorem c8_cache_idempotence_witness :
    load_cached [] "openai" "txt" 0 86400 true = none ∧
    (call_provider_with_retry
      (call_provider_with_retry [] "openai" "txt" 0 86400 true true
        (fun _ => .ok (some ⟨50, ["clickbait"]⟩)) 2 (3/5)).store "openai"
      "txt" 100 86400 true true
      (fun _ => .error ⟨.transient, "timeout"⟩) 2 (3/5)).result =
      .ok (some ⟨50, ["clickbait"]⟩) ∧
    (call_provider_with_retry
      (call_provider_with_retry [] "openai" "txt" 0 86400 true true
        (fun _ => .ok (some ⟨50, ["clickbait"]⟩)) 2 (3/5)).store "openai"
      "txt" 100 86400 true true
      (fun _ => .error ⟨.transient, "timeout"⟩) 2 (3/5)).provider_calls
      = 0 := by
  have h := c8_cache_idempotence.2 [] "openai" "txt" 0 100 86400 true
    (fun _ => .ok (some ⟨50, ["clickbait"]⟩))
    (fun _ => .error ⟨.transient, "timeout"⟩) 2 2 (3/5) (3/5)
    ⟨50, ["clickbait"]⟩ rfl rfl (by norm_num)
  exact ⟨rfl, h.2.1, h.2.2⟩

/-!
## Claim C7
-/

/-- C7. Claim-partition invariant. On the main path of `fact_check_content`
the verified and disputed lists partition the verification results of the
extracted claims: together (with multiplicity) they are a permutation of
the results, a result sits in `verified_claims` exactly when it is not in
`disputed_claims`, and a result whose verification is undetermined
(`verified = None`) is placed in `disputed_claims` and never counted as
verified. -/
theorem c7_claim_partition (content : String) (o : FCOracles) (now : ℚ)
    (claims tinfo : List String)
    (hx : o.extract = .ok claims) (ht : o.topic = .ok tinfo) :
    ((fact_check_content content o now).verified_claims ++
      (fact_check_content content o now).disputed_claims.filterMap
        disputedRes).Perm (claims.map (verify_claim o.search)) ∧
    (∀ r ∈ claims.map (verify_claim o.search),
      (r ∈ (fact_check_content content o now).verified_claims ↔
        DisputedEntry.res r ∉ (fact_check_content content o now).disputed_claims)) ∧
    (∀ r ∈ claims.map (verify_claim o.search), r.verified = none →
      DisputedEntry.res r ∈ (fact_check_content content o now).disputed_claims ∧
      r ∉ (fact_check_content content o now).verified_claims) := by
  have hV : (fact_check_content content o now).verified_claims =
      (claims.map (verify_claim o.search)).filter
        (fun r => pyTruthy r.verified) := by
    simp [fact_check_content, hx, ht]
  have hD : (fact_check_content content o now).disputed_claims =
      ((claims.map (verify_claim o.search)).filter
        (fun r => !pyTruthy r.verified)).map .res := by
    simp [fact_check_content, hx, ht]
  refine ⟨?_, ?_, ?_⟩
  · rw [hV, hD, List.filterMap_map]
    have hc : disputedRes ∘ DisputedEntry.res = some := rfl
    rw [hc, List.filterMap_some]
    exact List.filter_append_perm _ _
  · intro r hr
    rw [hV, hD]
    constructor
    · intro hrv hrd
      have h1 : pyTruthy r.verified = true := (List.mem_filter.mp hrv).2
      obtain ⟨a, ha, hae⟩ := List.mem_map.mp hrd
      have har : a = r := by injection hae
      subst har
      have h2 := (List.mem_filter.mp ha).2
      simp [h1] at h2
    · intro hnd
      refine List.mem_filter.mpr ⟨hr, ?_⟩
      by_contra hp
      apply hnd
      refine List.mem_map_of_mem _ (List.mem_filter.mpr ⟨hr, ?_⟩)
      simp only [Bool.not_eq_true] at hp
      simp [hp]
  · intro r hr hv
    rw [hV, hD]
    constructor
    · exact List.mem_map_of_mem _
        (List.mem_filter.mpr ⟨hr, by simp [hv, pyTruthy]⟩)
    · intro hmem
      have := (List.mem_filter.mp hmem).2
      rw [hv] at this
      simp [pyTruthy] at this

/-- C7, witness: two claims, one verified by a hit in the simulated fact
database and one undetermined (`verified = None`), are partitioned with
the undetermined claim in `disputed_claims` and not counted as
verified. -/
theorem c7_claim_partition_witness :
    (((fact_check_content "c" sampleFCOracles 0).verified_claims ++
      (fact_check_content "c" sampleFCOracles 0).disputed_claims.filterMap
        disputedRes).Perm
      (["vaccines are safe", "mystery"].map
        (verify_claim sampleFCOracles.search))) ∧
    (DisputedEntry.res (verify_claim sampleFCOracles.search "mystery") ∈
        (fact_check_content "c" sampleFCOracles 0).disputed_claims ∧
      verify_claim sampleFCOracles.search "mystery" ∉
        (fact_check_content "c" sampleFCOracles 0).verified_claims) :=
  ⟨(c7_claim_partition "c" sampleFCOracles 0 ["vaccines are safe", "mystery"]
      ["Topic analysis completed for: General Content Analysis"] rfl rfl).1,
   (c7_claim_partition "c" sampleFCOracles 0 ["vaccines are safe", "mystery"]
      ["Topic analysis completed for: General Content Analysis"] rfl
      rfl).2.2 _ (by simp)
      (by simp [verify_claim, sampleFCOracles, sampleSearch,
        analyze_search_results])⟩

/-!
## Claim C3
-/

/-- C3. No unhandled failure of the top-level operations: if claim
extraction raises, or a later pipeline step raises, `fact_check_content`
returns `_fallback_analysis` — a present, degraded result flagged with
`fallback_mode = True` and `internet_search_performed = False` — rather
than propagating the exception; and the `analyze` route returns a
successful response whenever `simple_analyze` succeeds, regardless of any
local-model or provider failure (an exception never escapes the route). -/
theorem c3_no_unhandled_exception :
    (∀ (content : String) (o : FCOracles) (now : ℚ) (e : String),
      o.extract = .error e →
      fact_check_content content o now = fallback_analysis content e now) ∧
    (∀ (content : String) (o : FCOracles) (now : ℚ) (claims : List String)
       (e : String),
      o.extract = .ok claims → o.topic = .error e →
      fact_check_content content o now = fallback_analysis content e now) ∧
    (∀ (content e : String) (now : ℚ),
      (fallback_analysis content e now).fallback_mode = true ∧
      (fallback_analysis content e now).internet_search_performed = false) ∧
    (∀ (text : String) (prefer : Option String) (o : AnalyzeOracles)
       (h : SimpleResult),
      text ≠ "" → o.heuristic = .ok h →
      ∃ p, analyze_route text prefer o = .ok p) ∧
    (∀ (text : String) (prefer : Option String) (o : AnalyzeOracles)
       (el ep : String) (h : SimpleResult),
      text ≠ "" → o.local_result = .error el →
      o.provider_result = .error ep → o.heuristic = .ok h →
      analyze_route text prefer o =
        .ok ⟨h, "heuristic", ai_detection_field o⟩) := by
  refine ⟨?_, ?_, ?_, ?_, ?_⟩
  · intro content o now e hx
    simp [fact_check_content, hx]
  · intro content o now claims e hx ht
    simp [fact_check_content, hx, ht]
  · intro content e now
    exact ⟨rfl, rfl⟩
  · intro text prefer o h htext hheur
    unfold analyze_route
    rw [if_neg htext]
    rcases hs : attempt_local_and_provider prefer o with ⟨sr, u⟩
    cases sr with
    | some r => exact ⟨⟨r, u, ai_detection_field o⟩, rfl⟩
    | none =>
      rw [hheur]
      exact ⟨⟨h, "heuristic", ai_detection_field o⟩, rfl⟩
  · intro text prefer o el ep h htext hlr hpr hheur
    have hstep : attempt_local_and_provider prefer o = (none, "heuristic") := by
      unfold attempt_local_and_provider
      rw [hlr, hpr]
      split_ifs <;> rfl
    unfold analyze_route
    rw [if_neg htext, hstep, hheur]

/-- C3, witness: a pipeline whose claim extraction raises yields exactly
the fallback analysis, and a request whose local model and provider both
fail still receives a 200 response built from the heuristic analyzer. -/
theorem c3_no_unhandled_exception_witness :
    fact_check_content "some content"
      ⟨.error "boom", fun _ => .ok [], .ok [], .ok []⟩ 0 =
      fallback_analysis "some content" "boom" 0 ∧
    fact_check_content "some content"
      ⟨.ok ["a claim"], fun _ => .ok [], .error "topic boom", .ok []⟩ 0 =
      fallback_analysis "some content" "topic boom" 0 ∧
    (∃ p, analyze_route "hello" none
      ⟨true, .error "local model crashed", some "openai",
       .error "provider exhausted", .ok ⟨75, []⟩,
       .error "detector crashed"⟩ = .ok p) ∧
    analyze_route "hello" none
      ⟨true, .error "local model crashed", some "openai",
       .error "provider exhausted", .ok ⟨75, []⟩,
       .error "detector crashed"⟩ =
      .ok ⟨⟨75, []⟩, "heuristic", .unavailable⟩ :=
  ⟨c3_no_unhandled_exception.1 "some content"
      ⟨.error "boom", fun _ => .ok [], .ok [], .ok []⟩ 0 "boom" rfl,
   c3_no_unhandled_exception.2.1 "some content"
      ⟨.ok ["a claim"], fun _ => .ok [], .error "topic boom", .ok []⟩ 0
      ["a claim"] "topic boom" rfl rfl,
   c3_no_unhandled_exception.2.2.2.1 "hello" none
      ⟨true, .error "local model crashed", some "openai",
       .error "provider exhausted", .ok ⟨75, []⟩,
       .error "detector crashed"⟩ ⟨75, []⟩ (by decide) rfl,
   c3_no_unhandled_exception.2.2.2.2 "hello" none
      ⟨true, .error "local model crashed", some "openai",
       .error "provider exhausted", .ok ⟨75, []⟩,
       .error "detector crashed"⟩ "local model crashed"
      "provider exhausted" ⟨75, []⟩ (by decide) rfl rfl rfl⟩

/-!
## Claim C9
-/

/-- After de-duplication the lower-cased titles are pairwise distinct, and
no emitted title was in the `seen_titles` accumulator. -/
lemma dedupe_go_pairwise_and_unseen :
    ∀ (l : List Article) (seen : List String),
      (dedupe_go seen l).Pairwise
        (fun a b => lowerStr a.title ≠ lowerStr b.title) ∧
      ∀ a ∈ dedupe_go seen l, lowerStr a.title ∉ seen := by
  intro l
  induction l with
  | nil => intro seen; exact ⟨List.Pairwise.nil, by simp [dedupe_go]⟩
  | cons a rest ih =>
    intro seen
    by_cases h : lowerStr a.title ∈ seen
    · simpa [dedupe_go, h] using ih seen
    · obtain ⟨ihp, ihm⟩ := ih (lowerStr a.title :: seen)
      rw [dedupe_go, if_neg (by simpa using h)]
      constructor
      · refine List.Pairwise.cons ?_ ihp
        intro b hb hEq
        have hbm := ihm b hb
        rw [← hEq] at hbm
        exact hbm (List.mem_cons_self _ _)
      · intro b hb
        rcases List.mem_cons.mp hb with hba | hbt
        · subst hba; exact h
        · exact fun hmem => ihm b hbt (List.mem_cons_of_mem _ hmem)

/-- On a list whose lower-cased titles are pairwise distinct and disjoint
from `seen`, the de-duplication loop is the identity. -/
lemma dedupe_go_of_pairwise :
    ∀ (l : List Article) (seen : List String),
      l.Pairwise (fun a b => lowerStr a.title ≠ lowerStr b.title) →
      (∀ a ∈ l, lowerStr a.title ∉ seen) →
      dedupe_go seen l = l := by
  intro l
  induction l with
  | nil => intro seen _ _; rfl
  | cons a rest ih =>
    intro seen hp hm
    rw [dedupe_go, if_neg (by simpa using hm a (List.mem_cons_self a rest))]
    congr 1
    refine ih _ hp.of_cons ?_
    intro b hb hmem
    rcases List.mem_cons.mp hmem with h1 | h2
    · exact (List.rel_of_pairwise_cons hp hb) h1.symm
    · exact hm b (List.mem_cons_of_mem _ hb) h2

/-- C9. The ranking step de-duplicates by lower-cased title (the output's
normalized titles are pairwise distinct and the output is a permutation of
the de-duplicated candidates), stable-sorts by `relevance_score`
descending (the output is sorted, and within each relevance class the
original insertion order is preserved exactly), and is idempotent:
re-running the ranking step on its own output returns it unchanged. -/
theorem c9_ranking_stable_dedup_idempotent (xs : List Article) :
    ((rank_and_deduplicate_articles xs).map
      (fun a => lowerStr a.title)).Nodup ∧
    (rank_and_deduplicate_articles xs).Sorted artLE ∧
    (rank_and_deduplicate_articles xs).Perm (dedupe_by_title xs) ∧
    (∀ q : ℚ, (rank_and_deduplicate_articles xs).filter
        (fun a => decide (a.relevance_score = q)) =
      (dedupe_by_title xs).filter (fun a => decide (a.relevance_score = q))) ∧
    rank_and_deduplicate_articles (rank_and_deduplicate_articles xs) =
      rank_and_deduplicate_articles xs := by
  have hdP : (dedupe_by_title xs).Pairwise
      (fun a b => lowerStr a.title ≠ lowerStr b.title) :=
    (dedupe_go_pairwise_and_unseen xs []).1
  have hperm : (rank_and_deduplicate_articles xs).Perm (dedupe_by_title xs) :=
    List.perm_insertionSort _ _
  have hsortP : (rank_and_deduplicate_articles xs).Pairwise
      (fun a b => lowerStr a.title ≠ lowerStr b.title) :=
    (hperm.pairwise_iff (fun hxy => hxy.symm)).mpr hdP
  refine ⟨?_, List.sorted_insertionSort artLE _, hperm, ?_, ?_⟩
  · rw [List.Nodup, List.pairwise_map]
    exact hsortP
  · intro q
    have hAp : ((dedupe_by_title xs).filter
        (fun a => decide (a.relevance_score = q))).Pairwise artLE := by
      refine List.pairwise_of_forall_mem_list ?_
      intro a ha b hb
      have ha' := of_decide_eq_true (List.mem_filter.mp ha).2
      have hb' := of_decide_eq_true (List.mem_filter.mp hb).2
      exact le_of_eq (hb'.trans ha'.symm)
    have hsub : ((dedupe_by_title xs).filter
        (fun a => decide (a.relevance_score = q))).Sublist
        (rank_and_deduplicate_articles xs) :=
      List.sublist_insertionSort hAp (List.filter_sublist _)
    have hsub2 := hsub.filter (fun a => decide (a.relevance_score = q))
    rw [List.filter_eq_self.mpr
      (fun a ha => (List.mem_filter.mp ha).2)] at hsub2
    have hlen : ((rank_and_deduplicate_articles xs).filter
        (fun a => decide (a.relevance_score = q))).length =
        ((dedupe_by_title xs).filter
          (fun a => decide (a.relevance_score = q))).length := by
      rw [← List.countP_eq_length_filter, ← List.countP_eq_length_filter]
      exact hperm.countP_eq _
    exact (hsub2.eq_of_length hlen.symm).symm
  · have hm : ∀ a ∈ rank_and_deduplicate_articles xs,
        lowerStr a.title ∉ ([] : List String) := by
      intro a _ hmem
      exact List.not_mem_nil _ hmem
    have hded : dedupe_by_title (rank_and_deduplicate_articles xs) =
        rank_and_deduplicate_articles xs :=
      dedupe_go_of_pairwise _ [] hsortP hm
    show ((dedupe_by_title (rank_and_deduplicate_articles xs)).insertionSort
      artLE) = rank_and_deduplicate_articles xs
    rw [hded]
    exact (List.sorted_insertionSort artLE _).insertionSort_eq

/-!
## Claim C10
-/

/-- The fallback loop returns a fallback result or the final failure
dictionary — never the `'No AI providers available'` branch. -/
lemma try_fallbacks_ne_noProviders (e : ProviderEnv)
    (behave : String → Except String Unit) (primary err : String) :
    ∀ l : List String,
      try_fallbacks e behave primary err l ≠ AnalyzeOutcome.noProviders := by
  intro l
  induction l with
  | nil => simp [try_fallbacks]
  | cons f rest ih =>
    rw [try_fallbacks]
    by_cases h1 : (f == primary) = true
    · simpa [h1] using ih
    · rw [if_neg h1]
      by_cases h2 : provider_is_available e f = true
      · rw [if_pos h2]
        cases hb : behave f with
        | ok r => simp
        | error er => simpa using ih
      · simpa [h2] using ih

/-- C10. `SpecializedProvider.is_available` returns `True` unconditionally,
so whatever the environment keys, content, content type and task,
`select_best_provider` returns some provider name, and the
`'No AI providers available'` branch of `MultiAIAgent.analyze_content` is
unreachable. -/
theorem c10_provider_selection_total (e : ProviderEnv)
    (content_type content task : String)
    (behave : String → Except String Unit) :
    (select_best_provider e content_type content task).isSome = true ∧
    analyze_content e content content_type task behave ≠
      AnalyzeOutcome.noProviders := by
  have hmem : "specialized" ∈ available_providers e := by
    rcases e with ⟨o, a, g⟩
    cases o <;> cases a <;> cases g <;> decide
  have hne : available_providers e ≠ [] := by
    intro h
    rw [h] at hmem
    exact List.not_mem_nil _ hmem
  have hemp : (available_providers e).isEmpty = false := by
    cases hav : available_providers e with
    | nil => exact absurd hav hne
    | cons x t => rfl
  have hhead : (available_providers e).head?.isSome = true := by
    cases hav : available_providers e with
    | nil => exact absurd hav hne
    | cons x t => rfl
  have hsel : (select_best_provider e content_type content task).isSome
      = true := by
    unfold select_best_provider
    rw [if_neg (by simp [hemp])]
    split_ifs <;> simp [hhead]
  refine ⟨hsel, ?_⟩
  unfold analyze_content
  cases hs : select_best_provider e content_type content task with
  | none => rw [hs] at hsel; exact absurd hsel (by simp)
  | some p =>
    cases hb : behave p with
    | ok r => simp [hb]
    | error er =>
      simp only [hb]
      exact try_fallbacks_ne_noProviders e behave p er _

end Filterize
